import Mathlib

/-!
Shallow embedding of the core of the `exchangeRateNotification` repository:
threshold evaluation (`ThresholdChecker.check`), the notification cooldown
cache (`NotificationCache`), the alert dispatcher with one bounded retry
(`NotificationService.sendAlert` / `sendWithRetry`), and the check-cycle
orchestration (`Scheduler`: `executeCheck`, `start`, `stop`,
`buildCronExpression`, `validatePollingInterval`).

Modelling conventions:
* JS `number` values (rates, thresholds, cooldown minutes, interval hours)
  are rationals `ℚ`; `Date` timestamps are rationals counting milliseconds
  since the epoch (`Date.getTime()`).
* The JS `Map<string, NotificationRecord>` is an association list with
  at-most-one entry per key maintained by `mapSet`.
* `async` functions that can reject are modelled with `Except String` or an
  explicit outcome field; external collaborators (the Resend email client,
  the rate fetcher) are modelled by oracle parameters describing each call's
  outcome.
-/

/-- `config.thresholds` from `src/config/types.ts`. -/
structure ThresholdConfig where
  upper : ℚ
  lower : ℚ
deriving DecidableEq, Repr

/-- `config.polling` from `src/config/types.ts`. -/
structure PollingConfig where
  intervalHours : ℚ
deriving DecidableEq, Repr

/-- `config.notification` from `src/config/types.ts` (API key omitted: it is
only threaded to the external Resend client). -/
structure NotificationConfig where
  fromEmail : String
  toEmail : String
  cooldownMinutes : ℚ
deriving DecidableEq, Repr

/-- The parts of `AppConfig` (`src/config/types.ts`) used by the core. -/
structure AppConfig where
  thresholds : ThresholdConfig
  polling : PollingConfig
  notification : NotificationConfig
deriving DecidableEq, Repr

/-- `RateData` from `src/models/RateData` as consumed by the core
(`timestamp` is milliseconds since epoch). -/
structure RateData where
  baseCurrency : String
  targetCurrency : String
  conversionRate : ℚ
  timestamp : ℚ
  source : String
deriving DecidableEq, Repr

/-- Left-pad a digit string with zeros to length 4 (helper for `toFixed4`). -/
def padZeros4 (s : String) : String :=
  String.mk (List.replicate (4 - s.length) '0') ++ s

/-- `x.toFixed(4)` for a nonnegative value: round half up to 4 decimal
places and render with exactly 4 fractional digits. -/
def toFixed4Nonneg (q : ℚ) : String :=
  let scaled : ℕ := (q * 10000 + 1 / 2).floor.toNat
  toString (scaled / 10000) ++ "." ++ padZeros4 (toString (scaled % 10000))

/-- Model of JS `Number.prototype.toFixed(4)` over exact rationals. -/
def toFixed4 (q : ℚ) : String :=
  if q < 0 then "-" ++ toFixed4Nonneg (-q) else toFixed4Nonneg q

/-- `ThresholdResult` from `src/utils/ThresholdChecker.ts`: `condition` and
`message` are optional fields, present only when `shouldNotify` is true. -/
structure ThresholdResult where
  shouldNotify : Bool
  condition : Option String := none
  message : Option String := none
deriving DecidableEq, Repr

/-- `ThresholdChecker.formatMessage` from `src/utils/ThresholdChecker.ts`. -/
def ThresholdChecker.formatMessage (config : AppConfig) (rateData : RateData)
    (condition : String) : String :=
  if condition = "above_upper" then
    "汇率提醒：" ++ rateData.baseCurrency ++ "/" ++ rateData.targetCurrency ++
      " 当前汇率 " ++ toFixed4 rateData.conversionRate ++
      " 已超过上限阈值 " ++ toFixed4 config.thresholds.upper
  else
    "汇率提醒：" ++ rateData.baseCurrency ++ "/" ++ rateData.targetCurrency ++
      " 当前汇率 " ++ toFixed4 rateData.conversionRate ++
      " 已低于下限阈值 " ++ toFixed4 config.thresholds.lower

/-- `ThresholdChecker.check` from `src/utils/ThresholdChecker.ts`:
strictly above the upper threshold notifies `above_upper`, strictly below
the lower threshold notifies `below_lower`, otherwise no action. -/
def ThresholdChecker.check (config : AppConfig) (rateData : RateData) :
    ThresholdResult :=
  if rateData.conversionRate > config.thresholds.upper then
    { shouldNotify := true
      condition := some "above_upper"
      message := some (ThresholdChecker.formatMessage config rateData "above_upper") }
  else if rateData.conversionRate < config.thresholds.lower then
    { shouldNotify := true
      condition := some "below_lower"
      message := some (ThresholdChecker.formatMessage config rateData "below_lower") }
  else
    { shouldNotify := false }

/-- `NotificationRecord` from `src/utils/NotificationCache.ts`
(`timestamp` is `Date.getTime()` milliseconds). -/
structure NotificationRecord where
  condition : String
  timestamp : ℚ
deriving DecidableEq, Repr

/-- The `Map<string, NotificationRecord>` held by `NotificationCache`,
modelled as an association list (at most one entry per key). -/
abbrev CacheMap := List (String × NotificationRecord)

/-- `Map.get`: the value stored under `k`, if any. -/
def mapGet (m : CacheMap) (k : String) : Option NotificationRecord :=
  (m.find? (fun p => p.1 == k)).map (fun p => p.2)

/-- `Map.set`: insert or overwrite the entry under `k`. -/
def mapSet (m : CacheMap) (k : String) (v : NotificationRecord) : CacheMap :=
  (k, v) :: m.filter (fun p => p.1 != k)

/-- `new NotificationCache()`: the empty map. -/
def NotificationCache.empty : CacheMap := []

/-- `NotificationCache.canSend` from `src/utils/NotificationCache.ts`:
true when no record exists for `condition`, or when the elapsed minutes
since its timestamp are `≥ cooldownMinutes`. `now` is the current
`Date.getTime()` in milliseconds. Pure query, no mutation. -/
def NotificationCache.canSend (m : CacheMap) (now : ℚ) (condition : String)
    (cooldownMinutes : ℚ) : Bool :=
  match mapGet m condition with
  | none => true
  | some rec0 =>
    let timeDiffMs := now - rec0.timestamp
    let timeDiffMinutes := timeDiffMs / (1000 * 60)
    decide (timeDiffMinutes ≥ cooldownMinutes)

/-- `NotificationCache.record` from `src/utils/NotificationCache.ts`:
insert or overwrite the record for `condition` with timestamp `now`. -/
def NotificationCache.record (m : CacheMap) (now : ℚ) (condition : String) :
    CacheMap :=
  mapSet m condition { condition := condition, timestamp := now }

/-- `NotificationCache.cleanup` from `src/utils/NotificationCache.ts`:
delete every record whose age in minutes is `≥ cooldownMinutes`. -/
def NotificationCache.cleanup (m : CacheMap) (now : ℚ) (cooldownMinutes : ℚ) :
    CacheMap :=
  m.filter (fun p => ! decide ((now - p.2.timestamp) / (1000 * 60) ≥ cooldownMinutes))

/-- `NotificationCache.size`. -/
def NotificationCache.size (m : CacheMap) : ℕ := m.length

/-- Outcome of one `sendAlert` dispatch: skipped by the cooldown gate,
delivered, or rejected with the propagated error message. -/
inductive AlertOutcome where
  | suppressed
  | sent
  | errored (msg : String)
deriving DecidableEq, Repr

/-- Result of `NotificationService.sendAlert`: the cache afterwards, the
number of delivery attempts made, and the outcome (`errored` models the
promise rejection propagated to the caller). -/
structure SendAlertResult where
  cache : CacheMap
  attempts : ℕ
  outcome : AlertOutcome
deriving DecidableEq, Repr

/-- The fixed 5-minute retry backoff (`this.sleep(5 * 60 * 1000)`). -/
def retryBackoffMs : ℚ := 5 * 60 * 1000

/-- `NotificationService.sendWithRetry` from
`src/services/NotificationService.ts`: one attempt; on failure wait five
minutes and attempt exactly once more; if the retry also fails, reject.
`send1`/`send2` are the oracle outcomes of the two external email sends;
the result is the number of attempts used. -/
def sendWithRetry (send1 send2 : Bool) : Except String ℕ :=
  if send1 then Except.ok 1
  else if send2 then Except.ok 2
  else Except.error "Failed to send email after retry"

/-- `NotificationService.shouldSendNotification`. -/
def shouldSendNotification (config : AppConfig) (m : CacheMap) (now : ℚ)
    (condition : String) : Bool :=
  NotificationCache.canSend m now condition config.notification.cooldownMinutes

/-- `NotificationService.sendAlert` from
`src/services/NotificationService.ts`: if the cooldown gate refuses, return
without any attempt; otherwise deliver via `sendWithRetry` (building the
email body is delegated to the external templating step) and on success
record the condition in the cache — at the post-backoff time when the retry
was needed — exactly once. A rejection of `sendWithRetry` propagates and
the cache is left unchanged. -/
def sendAlert (config : AppConfig) (m : CacheMap) (now : ℚ) (condition : String)
    (send1 send2 : Bool) : SendAlertResult :=
  if ! shouldSendNotification config m now condition then
    { cache := m, attempts := 0, outcome := AlertOutcome.suppressed }
  else
    match sendWithRetry send1 send2 with
    | Except.error e => { cache := m, attempts := 2, outcome := AlertOutcome.errored e }
    | Except.ok attempts =>
      let recordTime := if attempts = 1 then now else now + retryBackoffMs
      { cache := NotificationCache.record m recordTime condition
        attempts := attempts
        outcome := AlertOutcome.sent }

/-- Observable outcome of one `Scheduler.executeCheck` cycle: the cache
afterwards, whether the evaluator and the dispatcher were invoked, and the
error caught and logged by the cycle's try/catch (if any). The function is
total: no error escapes to the caller. -/
structure CycleResult where
  cache : CacheMap
  evaluatorCalled : Bool
  dispatchCalled : Bool
  caughtError : Option String
deriving DecidableEq, Repr

/-- `Scheduler.executeCheck` from `src/scheduler` (part_000): fetch, check
thresholds, dispatch; every step runs inside one try/catch, so a raised
error becomes `caughtError` instead of propagating. `fetchResult` is the
oracle for `rateService.fetchCurrentRate()` (`.ok none` is its null
"no data" result, `.error` a raised error); `send1`/`send2` are the email
oracle as in `sendAlert`. -/
def Scheduler.executeCheck (config : AppConfig) (m : CacheMap) (now : ℚ)
    (fetchResult : Except String (Option RateData)) (send1 send2 : Bool) :
    CycleResult :=
  match fetchResult with
  | Except.error e =>
    { cache := m, evaluatorCalled := false, dispatchCalled := false
      caughtError := some e }
  | Except.ok none =>
    { cache := m, evaluatorCalled := false, dispatchCalled := false
      caughtError := none }
  | Except.ok (some rateData) =>
    let thresholdResult := ThresholdChecker.check config rateData
    if thresholdResult.shouldNotify = false then
      { cache := m, evaluatorCalled := true, dispatchCalled := false
        caughtError := none }
    else
      let condition := thresholdResult.condition.getD ""
      let r := sendAlert config m now condition send1 send2
      match r.outcome with
      | AlertOutcome.errored e =>
        { cache := r.cache, evaluatorCalled := true, dispatchCalled := true
          caughtError := some e }
      | _ =>
        { cache := r.cache, evaluatorCalled := true, dispatchCalled := true
          caughtError := none }

/-- The scheduler's mutable fields: `isRunning` and the registered cron
task (modelled by its cron expression). -/
structure SchedulerState where
  isRunning : Bool
  cronTask : Option String
deriving DecidableEq, Repr

/-- JS remainder `a % b` for the positive operands used by
`buildCronExpression` (`24 % intervalHours` with `intervalHours ≥ 1`). -/
def jsMod (a b : ℚ) : ℚ := a - b * ((a / b).floor : ℚ)

/-- `Scheduler.buildCronExpression` from part_000: hour-based cron when the
interval divides 24, minute-based cron when the interval converts to fewer
than 60 minutes, and the same hour-based form as fallback otherwise. -/
def Scheduler.buildCronExpression (config : AppConfig) : String :=
  let intervalHours := config.polling.intervalHours
  if jsMod 24 intervalHours = 0 then
    "0 */" ++ toString intervalHours ++ " * * *"
  else
    let intervalMinutes := intervalHours * 60
    if intervalMinutes < 60 then
      "*/" ++ toString intervalMinutes ++ " * * * *"
    else
      "0 */" ++ toString intervalHours ++ " * * *"

/-- `Scheduler.validatePollingInterval` from part_000: throw a descriptive
error unless the interval is within 1–24 hours inclusive. -/
def Scheduler.validatePollingInterval (config : AppConfig) : Except String Unit :=
  let intervalHours := config.polling.intervalHours
  if intervalHours < 1 ∨ intervalHours > 24 then
    Except.error ("Invalid polling interval: " ++ toString intervalHours ++
      " hours. Must be between 1 and 24 hours.")
  else
    Except.ok ()

/-- The `Scheduler` constructor from part_000: validate the polling
interval (rethrowing its error) and start in the stopped state with no
cron task registered. -/
def Scheduler.construct (config : AppConfig) : Except String SchedulerState :=
  match Scheduler.validatePollingInterval config with
  | Except.error e => Except.error e
  | Except.ok _ => Except.ok { isRunning := false, cronTask := none }

/-- Effects of one `start()` call: whether the already-running warning was
logged, whether the immediate startup check ran, and whether a recurring
job was registered. -/
structure StartEffects where
  warnedAlreadyRunning : Bool
  executedImmediateCheck : Bool
  registeredJob : Bool
deriving DecidableEq, Repr

/-- `Scheduler.start` from part_000 at the state level: when already
running, log a warning and return unchanged; otherwise set `isRunning`,
execute one immediate check, and register the cron job. -/
def Scheduler.start (config : AppConfig) (s : SchedulerState) :
    SchedulerState × StartEffects :=
  if s.isRunning then
    (s, { warnedAlreadyRunning := true, executedImmediateCheck := false
          registeredJob := false })
  else
    ({ isRunning := true, cronTask := some (Scheduler.buildCronExpression config) },
     { warnedAlreadyRunning := false, executedImmediateCheck := true
       registeredJob := true })

/-- Effects of one `stop()` call. -/
structure StopEffects where
  warnedNotRunning : Bool
deriving DecidableEq, Repr

/-- `Scheduler.stop` from part_000: when not running, log a warning and
return unchanged; otherwise cancel the cron task and clear `isRunning`. -/
def Scheduler.stop (s : SchedulerState) : SchedulerState × StopEffects :=
  if s.isRunning then
    ({ isRunning := false, cronTask := none }, { warnedNotRunning := false })
  else
    (s, { warnedNotRunning := true })

/-- A sample well-formed configuration (thresholds 8.5/8.0, a 2-hour
polling interval, a 60-minute cooldown) used to instantiate theorems with
hypotheses at concrete inputs. -/
def sampleConfig : AppConfig :=
  { thresholds := { upper := 17 / 2, lower := 8 }
    polling := { intervalHours := 2 }
    notification := { fromEmail := "alerts@example.com"
                      toEmail := "user@example.com"
                      cooldownMinutes := 60 } }

/-- A sample rate reading with the given conversion rate. -/
def sampleRate (r : ℚ) : RateData :=
  { baseCurrency := "USD", targetCurrency := "CNY", conversionRate := r
    timestamp := 0, source := "ExchangeRate-API" }

/-! ### Lemmas about the association-list model of the JS `Map` -/

lemma mapGet_cons (p : String × NotificationRecord) (m : CacheMap) (k : String) :
    mapGet (p :: m) k = if p.1 = k then some p.2 else mapGet m k := by
  by_cases h : p.1 = k
  · simp [mapGet, List.find?_cons_of_pos, h]
  · simp [mapGet, List.find?_cons_of_neg, h]

lemma mapGet_mapSet_self (m : CacheMap) (k : String) (v : NotificationRecord) :
    mapGet (mapSet m k v) k = some v := by
  simp [mapSet, mapGet_cons]

lemma mapGet_filter_key (m : CacheMap) (k k' : String) (h : k' ≠ k) :
    mapGet (m.filter (fun p => p.1 != k)) k' = mapGet m k' := by
  induction m with
  | nil => rfl
  | cons p rest ih =>
    by_cases hp : p.1 = k
    · rw [List.filter_cons, if_neg (by simp [hp]), ih, mapGet_cons,
        if_neg (by rw [hp]; exact fun hh => h hh.symm)]
    · rw [List.filter_cons, if_pos (by simp [hp]), mapGet_cons, mapGet_cons, ih]

lemma mapGet_mapSet_ne (m : CacheMap) (k k' : String) (v : NotificationRecord)
    (h : k' ≠ k) : mapGet (mapSet m k v) k' = mapGet m k' := by
  rw [mapSet, mapGet_cons, if_neg (fun hh => h hh.symm), mapGet_filter_key m k k' h]

lemma mapGet_filter_none (m : CacheMap) (q : String × NotificationRecord → Bool)
    (k : String) (h : mapGet m k = none) : mapGet (m.filter q) k = none := by
  induction m with
  | nil => rfl
  | cons p rest ih =>
    rw [mapGet_cons] at h
    by_cases hp : p.1 = k
    · rw [if_pos hp] at h; exact absurd h (by simp)
    · rw [if_neg hp] at h
      rw [List.filter_cons]
      split
      · rw [mapGet_cons, if_neg hp]; exact ih h
      · exact ih h

lemma mapGet_eq_none_of_not_mem (m : CacheMap) (k : String)
    (h : k ∉ m.map Prod.fst) : mapGet m k = none := by
  induction m with
  | nil => rfl
  | cons p rest ih =>
    simp only [List.map_cons, List.mem_cons, not_or] at h
    rw [mapGet_cons, if_neg (fun hh => h.1 hh.symm)]
    exact ih h.2

lemma check_condition_imp_shouldNotify (config : AppConfig) (rd : RateData)
    (c : String) (h : (ThresholdChecker.check config rd).condition = some c) :
    (ThresholdChecker.check config rd).shouldNotify = true := by
  unfold ThresholdChecker.check at *
  split_ifs at h ⊢ <;> simp_all

/-! ### Claims -/

/-- C1: with `lower < upper`, `ThresholdChecker.check` notifies with
condition `above_upper` exactly when the rate is strictly above the upper
threshold, notifies with `below_lower` exactly when strictly below the
lower threshold, and takes no action whenever
`lower ≤ rate ≤ upper` — in particular at equality with either bound. -/
theorem check_threshold_spec (config : AppConfig) (rateData : RateData)
    (hlt : config.thresholds.lower < config.thresholds.upper) :
    (config.thresholds.upper < rateData.conversionRate →
      (ThresholdChecker.check config rateData).shouldNotify = true ∧
      (ThresholdChecker.check config rateData).condition = some "above_upper") ∧
    (rateData.conversionRate < config.thresholds.lower →
      (ThresholdChecker.check config rateData).shouldNotify = true ∧
      (ThresholdChecker.check config rateData).condition = some "below_lower") ∧
    (config.thresholds.lower ≤ rateData.conversionRate →
      rateData.conversionRate ≤ config.thresholds.upper →
      (ThresholdChecker.check config rateData).shouldNotify = false) := by
  unfold ThresholdChecker.check
  refine ⟨fun h => ?_, fun h => ?_, fun h1 h2 => ?_⟩ <;>
    split_ifs with ha hb <;>
    first
      | exact ⟨rfl, rfl⟩
      | rfl
      | (exfalso; linarith)

/-- Witness for C1 at thresholds 8.5/8.0 and rate 8.6. -/
theorem check_threshold_spec_witness :
    (ThresholdChecker.check sampleConfig (sampleRate (43 / 5))).shouldNotify = true ∧
    (ThresholdChecker.check sampleConfig (sampleRate (43 / 5))).condition =
      some "above_upper" :=
  (check_threshold_spec sampleConfig (sampleRate (43 / 5))
      (by norm_num [sampleConfig])).1
    (by norm_num [sampleConfig, sampleRate])

/-- C2: `canSend` is true iff no record exists for the condition or the
elapsed minutes since its timestamp reach the cooldown (inclusive
boundary); it is true on the fresh cache; and after `record` at time `t`
it is false for any positive cooldown while fewer than `cooldownMinutes`
minutes have elapsed. (`canSend` is a pure query: in this embedding it
returns only a `Bool` and cannot mutate the cache.) -/
theorem canSend_spec (m : CacheMap) (now : ℚ) (c : String) (cd : ℚ) :
    (NotificationCache.canSend m now c cd = true ↔
      mapGet m c = none ∨
        ∃ r, mapGet m c = some r ∧ (now - r.timestamp) / (1000 * 60) ≥ cd) ∧
    NotificationCache.canSend NotificationCache.empty now c cd = true ∧
    (∀ t u : ℚ, 0 < cd → (u - t) / (1000 * 60) < cd →
      NotificationCache.canSend (NotificationCache.record m t c) u c cd = false) := by
  refine ⟨?_, rfl, fun t u hcd hlt => ?_⟩
  · unfold NotificationCache.canSend
    cases h : mapGet m c with
    | none => simp [h]
    | some r => simp [h]
  · unfold NotificationCache.canSend NotificationCache.record
    rw [mapGet_mapSet_self]
    simp only [decide_eq_false_iff_not, ge_iff_le, not_le]
    exact hlt

/-- Witness for C2: after recording `above_upper` at time 0, sending is
refused 5 ms later with a 60-minute cooldown. -/
theorem canSend_spec_witness :
    NotificationCache.canSend
      (NotificationCache.record NotificationCache.empty 0 "above_upper")
      5 "above_upper" 60 = false :=
  (canSend_spec NotificationCache.empty 5 "above_upper" 60).2.2 0 5
    (by norm_num) (by norm_num)

/-- C3: when the dispatch is not suppressed, at most two delivery attempts
are made; a first-attempt success records the condition once at `now` and
returns sent; a retry success records it once at `now + 5 min` and returns
sent; and when both attempts fail, the delivery-failure error propagates
and the cache is unchanged (no `record` call). -/
theorem sendAlert_retry_spec (config : AppConfig) (m : CacheMap) (now : ℚ)
    (c : String) (send1 send2 : Bool)
    (hcan : NotificationCache.canSend m now c config.notification.cooldownMinutes
      = true) :
    (sendAlert config m now c send1 send2).attempts ≤ 2 ∧
    (send1 = true →
      sendAlert config m now c send1 send2 =
        { cache := NotificationCache.record m now c, attempts := 1
          outcome := AlertOutcome.sent }) ∧
    (send1 = false → send2 = true →
      sendAlert config m now c send1 send2 =
        { cache := NotificationCache.record m (now + retryBackoffMs) c
          attempts := 2, outcome := AlertOutcome.sent }) ∧
    (send1 = false → send2 = false →
      sendAlert config m now c send1 send2 =
        { cache := m, attempts := 2
          outcome := AlertOutcome.errored "Failed to send email after retry" }) := by
  unfold sendAlert shouldSendNotification sendWithRetry
  rw [hcan]
  cases send1 <;> cases send2 <;> simp

/-- Witness for C3: on the fresh cache (cooldown gate open) with a
failing first attempt and a successful retry, the alert is sent after two
attempts and `above_upper` is recorded at the post-backoff time. -/
theorem sendAlert_retry_spec_witness :
    NotificationCache.canSend NotificationCache.empty 0 "above_upper"
      sampleConfig.notification.cooldownMinutes = true ∧
    sendAlert sampleConfig NotificationCache.empty 0 "above_upper" false true =
      { cache := NotificationCache.record NotificationCache.empty retryBackoffMs
          "above_upper"
        attempts := 2, outcome := AlertOutcome.sent } := by
  refine ⟨rfl, ?_⟩
  have h := (sendAlert_retry_spec sampleConfig NotificationCache.empty 0
    "above_upper" false true rfl).2.2.1 rfl rfl
  rw [h]
  norm_num

/-- C4: when the cooldown gate refuses (`canSend` is false at dispatch
time), `sendAlert` makes no delivery attempt, leaves the cache unchanged,
and returns the suppressed outcome without error. -/
theorem sendAlert_suppressed_spec (config : AppConfig) (m : CacheMap) (now : ℚ)
    (c : String) (send1 send2 : Bool)
    (hcan : NotificationCache.canSend m now c config.notification.cooldownMinutes
      = false) :
    sendAlert config m now c send1 send2 =
      { cache := m, attempts := 0, outcome := AlertOutcome.suppressed } := by
  unfold sendAlert shouldSendNotification
  rw [hcan]
  rfl

/-- Witness for C4: immediately after recording `above_upper`, a second
dispatch for it is suppressed with no attempt and no cache change. -/
theorem sendAlert_suppressed_spec_witness :
    NotificationCache.canSend
      (NotificationCache.record NotificationCache.empty 0 "above_upper") 0
      "above_upper" sampleConfig.notification.cooldownMinutes = false ∧
    sendAlert sampleConfig
      (NotificationCache.record NotificationCache.empty 0 "above_upper") 0
      "above_upper" true true =
      { cache := NotificationCache.record NotificationCache.empty 0 "above_upper"
        attempts := 0, outcome := AlertOutcome.suppressed } := by
  have hcan : NotificationCache.canSend
      (NotificationCache.record NotificationCache.empty 0 "above_upper") 0
      "above_upper" sampleConfig.notification.cooldownMinutes = false := by
    unfold NotificationCache.canSend NotificationCache.record
    rw [mapGet_mapSet_self]
    simp only [decide_eq_false_iff_not, ge_iff_le, not_le, sampleConfig]
    norm_num
  exact ⟨hcan, sendAlert_suppressed_spec sampleConfig _ 0 "above_upper" true true hcan⟩

/-- C6: conditions are independent in the cache: `record(A)` never changes
`canSend(B, m)` for `B ≠ A`; it overwrites exactly `A`'s record (with the
new timestamp) and leaves `B`'s stored record untouched. -/
theorem record_independence_spec (m : CacheMap) (t now cd : ℚ) (A B : String)
    (hne : A ≠ B) :
    NotificationCache.canSend (NotificationCache.record m t A) now B cd =
      NotificationCache.canSend m now B cd ∧
    mapGet (NotificationCache.record m t A) A =
      some { condition := A, timestamp := t } ∧
    mapGet (NotificationCache.record m t A) B = mapGet m B := by
  have hg : mapGet (NotificationCache.record m t A) B = mapGet m B :=
    mapGet_mapSet_ne m A B _ (fun h => hne h.symm)
  refine ⟨?_, mapGet_mapSet_self m A _, hg⟩
  unfold NotificationCache.canSend
  rw [hg]

/-- Witness for C6: recording `above_upper` leaves `canSend` for
`below_lower` true on the previously fresh cache. -/
theorem record_independence_spec_witness :
    NotificationCache.canSend
      (NotificationCache.record NotificationCache.empty 0 "above_upper") 0
      "below_lower" 60 =
      NotificationCache.canSend NotificationCache.empty 0 "below_lower" 60 :=
  (record_independence_spec NotificationCache.empty 0 0 60 "above_upper"
    "below_lower" (by decide)).1

/-- C8: scheduler construction rejects with the descriptive
invalid-interval error exactly when the configured polling interval lies
outside the inclusive range 1–24 hours, and succeeds (stopped, no cron
task) for every interval inside it. -/
theorem construct_interval_spec (config : AppConfig) :
    (config.polling.intervalHours < 1 ∨ config.polling.intervalHours > 24 →
      Scheduler.construct config =
        Except.error ("Invalid polling interval: " ++
          toString config.polling.intervalHours ++
          " hours. Must be between 1 and 24 hours.")) ∧
    (1 ≤ config.polling.intervalHours → config.polling.intervalHours ≤ 24 →
      Scheduler.construct config =
        Except.ok { isRunning := false, cronTask := none }) := by
  unfold Scheduler.construct Scheduler.validatePollingInterval
  constructor
  · intro h
    rw [if_pos h]
  · intro h1 h2
    rw [if_neg (by push_neg; exact ⟨h1, h2⟩)]

/-- Witness for C8: interval 25 fails construction with the descriptive
error; the sample 2-hour interval succeeds. -/
theorem construct_interval_spec_witness :
    Scheduler.construct { sampleConfig with polling := { intervalHours := 25 } } =
      Except.error
        "Invalid polling interval: 25 hours. Must be between 1 and 24 hours." ∧
    Scheduler.construct sampleConfig =
      Except.ok { isRunning := false, cronTask := none } := by
  constructor
  · have h := (construct_interval_spec
      { sampleConfig with polling := { intervalHours := 25 } }).1
      (by norm_num [sampleConfig])
    rw [h]
    congr 1
  · exact (construct_interval_spec sampleConfig).2 (by norm_num [sampleConfig])
      (by norm_num [sampleConfig])

lemma mapGet_cleanup_of_some (m : CacheMap) (now cd : ℚ) (c : String)
    (hnd : (m.map Prod.fst).Nodup) (r : NotificationRecord)
    (h : mapGet m c = some r) :
    mapGet (NotificationCache.cleanup m now cd) c =
      if (now - r.timestamp) / (1000 * 60) ≥ cd then none else some r := by
  induction m with
  | nil => simp [mapGet] at h
  | cons p rest ih =>
    rw [List.map_cons, List.nodup_cons] at hnd
    rw [mapGet_cons] at h
    unfold NotificationCache.cleanup
    rw [List.filter_cons]
    by_cases hp : p.1 = c
    · rw [if_pos hp] at h
      injection h with h2
      subst h2
      by_cases hage : (now - p.2.timestamp) / (1000 * 60) ≥ cd
      · rw [if_neg (by simp [hage]), if_pos hage]
        exact mapGet_filter_none rest _ c
          (mapGet_eq_none_of_not_mem rest c (hp ▸ hnd.1))
      · rw [if_pos (by simp [hage]), mapGet_cons, if_pos hp, if_neg hage]
    · rw [if_neg hp] at h
      have hrec := ih hnd.2 h
      unfold NotificationCache.cleanup at hrec
      split
      · rw [mapGet_cons, if_neg hp]
        exact hrec
      · exact hrec

/-- C7: `cleanup(m)` removes exactly the records whose age in minutes is
`≥ cooldownMinutes` (records below that age are kept unchanged, absent
records stay absent), and for a cache with well-formed (duplicate-free)
keys it never changes the result of a subsequent `canSend` call with the
same cooldown at any later time. -/
theorem cleanup_spec (m : CacheMap) (now cd : ℚ) (c : String)
    (hnd : (m.map Prod.fst).Nodup) :
    (∀ r, mapGet m c = some r →
      mapGet (NotificationCache.cleanup m now cd) c =
        if (now - r.timestamp) / (1000 * 60) ≥ cd then none else some r) ∧
    (mapGet m c = none → mapGet (NotificationCache.cleanup m now cd) c = none) ∧
    (∀ u, now ≤ u →
      NotificationCache.canSend (NotificationCache.cleanup m now cd) u c cd =
        NotificationCache.canSend m u c cd) := by
  refine ⟨fun r h => mapGet_cleanup_of_some m now cd c hnd r h,
    fun h => mapGet_filter_none m _ c h, fun u hu => ?_⟩
  unfold NotificationCache.canSend
  cases h : mapGet m c with
  | none =>
    have hcl : mapGet (NotificationCache.cleanup m now cd) c = none :=
      mapGet_filter_none m _ c h
    rw [hcl]
  | some r =>
    rw [mapGet_cleanup_of_some m now cd c hnd r h]
    by_cases hage : (now - r.timestamp) / (1000 * 60) ≥ cd
    · rw [if_pos hage]
      have hstep : (now - r.timestamp) / (1000 * 60) ≤
          (u - r.timestamp) / (1000 * 60) :=
        (div_le_div_right (by norm_num : (0:ℚ) < 1000 * 60)).mpr (by linarith)
      have hmono : (u - r.timestamp) / (1000 * 60) ≥ cd := le_trans hage hstep
      simp [hmono]
    · rw [if_neg hage]

/-- Witness for C7 on a one-record cache with duplicate-free keys. -/
theorem cleanup_spec_witness :
    NotificationCache.canSend
      (NotificationCache.cleanup
        (NotificationCache.record NotificationCache.empty 0 "above_upper") 0 60)
      0 "above_upper" 60 =
      NotificationCache.canSend
        (NotificationCache.record NotificationCache.empty 0 "above_upper") 0
        "above_upper" 60 :=
  (cleanup_spec (NotificationCache.record NotificationCache.empty 0 "above_upper")
    0 60 "above_upper" (by decide)).2.2 0 le_rfl

/-- C5: `executeCheck` is a total function of its collaborators' outcomes
(no error escapes to the scheduler): when the fetch yields no data the
evaluator and dispatcher are not invoked and the cycle ends without error;
an error raised by the fetch is caught and logged; a no-action evaluation
skips the dispatcher without error; and a final delivery failure inside
the dispatch is caught as a logged error with the cache unchanged. -/
theorem executeCheck_spec (config : AppConfig) (m : CacheMap) (now : ℚ)
    (fetchResult : Except String (Option RateData)) (s1 s2 : Bool) :
    (fetchResult = Except.ok none →
      Scheduler.executeCheck config m now fetchResult s1 s2 =
        { cache := m, evaluatorCalled := false, dispatchCalled := false
          caughtError := none }) ∧
    (∀ e, fetchResult = Except.error e →
      Scheduler.executeCheck config m now fetchResult s1 s2 =
        { cache := m, evaluatorCalled := false, dispatchCalled := false
          caughtError := some e }) ∧
    (∀ rd, fetchResult = Except.ok (some rd) →
      (ThresholdChecker.check config rd).shouldNotify = false →
      Scheduler.executeCheck config m now fetchResult s1 s2 =
        { cache := m, evaluatorCalled := true, dispatchCalled := false
          caughtError := none }) ∧
    (∀ rd c, fetchResult = Except.ok (some rd) →
      (ThresholdChecker.check config rd).condition = some c →
      NotificationCache.canSend m now c config.notification.cooldownMinutes
        = true →
      s1 = false → s2 = false →
      Scheduler.executeCheck config m now fetchResult s1 s2 =
        { cache := m, evaluatorCalled := true, dispatchCalled := true
          caughtError := some "Failed to send email after retry" }) := by
  refine ⟨fun h => by rw [h]; rfl, fun e he => by rw [he]; rfl,
    fun rd hrd hno => ?_, fun rd c hrd hc hcan hs1 hs2 => ?_⟩
  · rw [hrd]
    simp [Scheduler.executeCheck, hno]
  · rw [hrd]
    subst hs1
    subst hs2
    have hsn := check_condition_imp_shouldNotify config rd c hc
    simp [Scheduler.executeCheck, hsn, hc, sendAlert, shouldSendNotification,
      sendWithRetry, hcan]

/-- Witness for C5: a fetch returning no data completes the cycle with no
evaluator call, no dispatch and no error. -/
theorem executeCheck_spec_witness :
    Scheduler.executeCheck sampleConfig NotificationCache.empty 0
      (Except.ok none) true true =
      { cache := NotificationCache.empty, evaluatorCalled := false
        dispatchCalled := false, caughtError := none } :=
  (executeCheck_spec sampleConfig NotificationCache.empty 0
    (Except.ok none) true true).1 rfl

/-- C9: the scheduler's running flag is a two-state machine: `start` on a
stopped instance transitions to running, runs the immediate check and
registers the job; `start` on a running instance warns and changes nothing;
`stop` on a running instance transitions to stopped and clears the task;
`stop` on a stopped instance warns and changes nothing; and both
operations are idempotent on the state. -/
theorem scheduler_state_machine_spec (config : AppConfig) (s : SchedulerState) :
    (s.isRunning = false →
      Scheduler.start config s =
        ({ isRunning := true
           cronTask := some (Scheduler.buildCronExpression config) },
         { warnedAlreadyRunning := false, executedImmediateCheck := true
           registeredJob := true })) ∧
    (s.isRunning = true →
      Scheduler.start config s =
        (s, { warnedAlreadyRunning := true, executedImmediateCheck := false
              registeredJob := false })) ∧
    (s.isRunning = true →
      Scheduler.stop s =
        ({ isRunning := false, cronTask := none },
         { warnedNotRunning := false })) ∧
    (s.isRunning = false → Scheduler.stop s = (s, { warnedNotRunning := true })) ∧
    (Scheduler.start config (Scheduler.start config s).1).1 =
      (Scheduler.start config s).1 ∧
    (Scheduler.stop (Scheduler.stop s).1).1 = (Scheduler.stop s).1 := by
  unfold Scheduler.start Scheduler.stop
  cases h : s.isRunning <;> simp [h]

/-- Witness for C9: starting from the freshly constructed (stopped) state. -/
theorem scheduler_state_machine_spec_witness :
    Scheduler.start sampleConfig { isRunning := false, cronTask := none } =
      ({ isRunning := true
         cronTask := some (Scheduler.buildCronExpression sampleConfig) },
       { warnedAlreadyRunning := false, executedImmediateCheck := true
         registeredJob := true }) :=
  (scheduler_state_machine_spec sampleConfig
    { isRunning := false, cronTask := none }).1 rfl

/-- C10: for every integral polling interval accepted by construction-time
validation (1–24 inclusive), `buildCronExpression` produces the hour-based
cron expression `0 */N * * *`; the minute-based branch's guard
`intervalHours * 60 < 60` is false for every such interval, so that branch
is unreachable under the construction precondition. -/
theorem buildCron_hour_spec (config : AppConfig) (n : ℤ)
    (hn : config.polling.intervalHours = (n : ℚ)) (h1 : 1 ≤ n) (h24 : n ≤ 24) :
    Scheduler.buildCronExpression config =
      "0 */" ++ toString config.polling.intervalHours ++ " * * *" ∧
    ¬ config.polling.intervalHours * 60 < 60 := by
  have hq : (1 : ℚ) ≤ config.polling.intervalHours := by
    rw [hn]; exact_mod_cast h1
  have hm : ¬ config.polling.intervalHours * 60 < 60 := by
    push_neg; nlinarith
  refine ⟨?_, hm⟩
  unfold Scheduler.buildCronExpression
  by_cases hmod : jsMod 24 config.polling.intervalHours = 0
  · rw [if_pos hmod]
  · rw [if_neg hmod, if_neg hm]

/-- Witness for C10: the sample 2-hour interval yields `0 */2 * * *`. -/
theorem buildCron_hour_spec_witness :
    Scheduler.buildCronExpression sampleConfig = "0 */2 * * *" := by
  have h := (buildCron_hour_spec sampleConfig 2 (by norm_num [sampleConfig])
    (by norm_num) (by norm_num)).1
  rw [h]
  congr 1
